import Mathlib

/-!
Shallow embedding of src/bot.py (a Telegram image-generation bot).

The Prompt Handler `generate_image` is modelled as a function from an
environment describing the outcome of every collaborator-library call
(each call either succeeds or raises) to the trace of call attempts it
makes, paired with the exception, if any, that propagates out of the
handler.  Python try/except/finally semantics are modelled explicitly:
an exception raised in the finally block supersedes one in flight.
-/

namespace AiGen

/-- PIL image colour modes relevant to the bot (`img.mode`). -/
inductive Mode where
  | RGB
  | RGBA
  | L
  | P
  | CMYK
deriving DecidableEq, Repr

/-- Encoded-image formats (`img.save(bio, "JPEG")`). -/
inductive ImgFormat where
  | JPEG
  | PNG
deriving DecidableEq, Repr

/-- A decoded PIL image; the handler only inspects its `mode`. -/
structure PilImage where
  mode : Mode
deriving DecidableEq, Repr

/-- Embeds `img.convert("RGB")`. -/
def convertRGB (img : PilImage) : PilImage :=
  { img with mode := Mode.RGB }

/-- The `io.BytesIO` buffer the JPEG is written into: its assigned name,
the format written by `img.save`, the colour mode of the saved image and
the current read position. -/
structure ByteStream where
  name : String
  format : ImgFormat
  imageMode : Mode
  pos : Nat
deriving DecidableEq, Repr

/-- One collaborator-library call attempt made by the handler. -/
inductive Event where
  | sendMessage (chatId : Nat) (text : String) (msgId : Nat)
  | genCall (prompt : String)
  | sendPhoto (chatId : Nat) (photo : ByteStream)
  | deleteMessage (chatId : Nat) (msgId : Nat)
deriving DecidableEq, Repr

/-- The exception that a given collaborator call raises, when it fails. -/
inductive Exn where
  | statusSendFailed
  | genFailed
  | extractFailed
  | b64Failed
  | openFailed
  | saveFailed
  | photoSendFailed
  | errorSendFailed
  | deleteFailed
deriving DecidableEq, Repr

/-- Outcome of every external call the handler can make: `true` means the
call succeeds, `false` means it raises.  `statusMsgId` is the platform id
of the transient status message, `decodedMode` the colour mode of the
decoded image, `jpegLen` the number of bytes `img.save` writes (the read
position before `bio.seek 0`). -/
structure Env where
  sendStatusOk : Bool
  statusMsgId : Nat
  genOk : Bool
  extractOk : Bool
  b64Ok : Bool
  openOk : Bool
  decodedMode : Mode
  saveOk : Bool
  jpegLen : Nat
  sendPhotoOk : Bool
  errMsgId : Nat
  sendErrorOk : Bool
  deleteOk : Bool
deriving DecidableEq, Repr

/-- Text of the transient status notice sent before generation. -/
def statusText : String :=
  "🎨 Generating your image, please wait a moment..."

/-- Text of the generic failure notice sent from the except block. -/
def errorText : String :=
  "😥 Sorry, something went wrong.\n\nThis could be because the prompt was unsafe or the service is busy. Please try a different prompt."

/-- The body of the try block of `generate_image`: generation call,
payload extraction, base64 decode, `Image.open`, RGB normalisation,
JPEG re-encode with `seek 0`, and `send_photo`.  Returns the call
attempts made and the exception raised inside the block, if any. -/
def tryBlock (env : Env) (prompt : String) (chatId : Nat) : List Event × Option Exn :=
  let genEv := [Event.genCall prompt]
  if env.genOk = false then (genEv, some Exn.genFailed)
  else if env.extractOk = false then (genEv, some Exn.extractFailed)
  else if env.b64Ok = false then (genEv, some Exn.b64Failed)
  else if env.openOk = false then (genEv, some Exn.openFailed)
  else
    let img : PilImage := { mode := env.decodedMode }
    let img2 := if img.mode ≠ Mode.RGB then convertRGB img else img
    if env.saveOk = false then (genEv, some Exn.saveFailed)
    else
      let bio : ByteStream :=
        { name := "image.jpeg", format := ImgFormat.JPEG
          imageMode := img2.mode, pos := env.jpegLen }
      let bio2 := { bio with pos := 0 }
      (genEv ++ [Event.sendPhoto chatId bio2],
        if env.sendPhotoOk = false then some Exn.photoSendFailed else none)

/-- The finally block: the single `delete_message` call on the status
notice.  The delete attempt always happens; it raises when `deleteOk`
is false. -/
def finallyDelete (env : Env) (chatId : Nat) : List Event × Option Exn :=
  ([Event.deleteMessage chatId env.statusMsgId],
    if env.deleteOk = false then some Exn.deleteFailed else none)

/-- Python finally semantics: an exception raised in the finally block
supersedes the exception in flight. -/
def supersede (pending finExn : Option Exn) : Option Exn :=
  match finExn with
  | some f => some f
  | none => pending

/-- Embeds `generate_image(update, context)`.  `text` is
`update.message.text` (absent or a string), `chatId` the originating
chat.  Returns the trace of collaborator call attempts and the
exception, if any, that propagates out of the handler. -/
def generate_image (env : Env) (text : Option String) (chatId : Nat) :
    List Event × Option Exn :=
  match text with
  | none => ([], none)
  | some prompt =>
    if prompt = "" then ([], none)
    else
      let statusEv := Event.sendMessage chatId statusText env.statusMsgId
      if env.sendStatusOk = false then
        ([statusEv], some Exn.statusSendFailed)
      else
        let tr := tryBlock env prompt chatId
        let fin := finallyDelete env chatId
        match tr.2 with
        | none =>
          (statusEv :: tr.1 ++ fin.1, supersede none fin.2)
        | some _ =>
          let errEv := Event.sendMessage chatId errorText env.errMsgId
          (statusEv :: tr.1 ++ errEv :: fin.1,
            supersede (if env.sendErrorOk = false then some Exn.errorSendFailed else none)
              fin.2)

/-- Recognises a send of the transient status notice. -/
def isStatusSend : Event → Bool
  | Event.sendMessage _ t _ => t == statusText
  | _ => false

/-- Recognises a send of the generic failure notice. -/
def isErrorSend : Event → Bool
  | Event.sendMessage _ t _ => t == errorText
  | _ => false

/-- Recognises a generation-API call. -/
def isGenCall : Event → Bool
  | Event.genCall _ => true
  | _ => false

/-- Recognises a photo send. -/
def isPhotoSend : Event → Bool
  | Event.sendPhoto _ _ => true
  | _ => false

/-- Recognises a message delete. -/
def isDelete : Event → Bool
  | Event.deleteMessage _ _ => true
  | _ => false

/-! ### Startup configuration (module top level and `main`) -/

/-- Python truthiness test `not s` on an environment variable: true when
the variable is absent or the empty string. -/
def falsy : Option String → Bool
  | none => true
  | some s => s == ""

/-- How far the process gets at startup. -/
inductive ProcOutcome where
  | exitedAtConfig
  | returnedWithoutStart
  | started
deriving DecidableEq, Repr

/-- Embeds the startup sequence: the module-level `GEMINI_API_KEY` check
(`exit()` on failure), then the `TELEGRAM_TOKEN` check at the top of
`main` (log and `return` on failure), then service startup. -/
def runProcess (geminiKey telegramToken : Option String) : ProcOutcome :=
  if falsy geminiKey then ProcOutcome.exitedAtConfig
  else if falsy telegramToken then ProcOutcome.returnedWithoutStart
  else ProcOutcome.started

/-! ### Health-check web server -/

/-- HTTP request methods the embedding distinguishes. -/
inductive HttpMethod where
  | GET
  | POST
deriving DecidableEq, Repr

/-- An inbound HTTP request: method and path (the handler ignores the
rest of the request). -/
structure HttpRequest where
  method : HttpMethod
  path : String
deriving DecidableEq, Repr

/-- An HTTP response: status, content type and body. -/
structure HttpResponse where
  status : Nat
  contentType : String
  body : String
deriving DecidableEq, Repr

/-- Embeds `health_check`: `web.Response(text="OK")`, which aiohttp
renders with status 200 and a plain-text content type. -/
def health_check (_req : HttpRequest) : HttpResponse :=
  { status := 200, contentType := "text/plain", body := "OK" }

/-- Embeds the router set up by `app.router.add_get("/health",
health_check)`: only a GET on /health reaches the handler. -/
def appRoute (req : HttpRequest) : Option HttpResponse :=
  if req.method = HttpMethod.GET ∧ req.path = "/health" then some (health_check req)
  else none

/-! ### Command responder -/

/-- A command-handler effect: a text reply to the requesting chat. -/
inductive CommandEvent where
  | replyText (text : String)
deriving DecidableEq, Repr

/-- The welcome text after the personalised greeting prefix. -/
def welcomeTail : String :=
  "!\n\nI\x27m an image generation bot. Just send me a text description, and I\x27ll create an image for you.\n\nFor example, try sending:\n🎨 `A futuristic cityscape at sunset`\n🚀 `A corgi astronaut floating in space`"

/-- Embeds the f-string `welcome_message` built in `start` from the
first name of the requesting user. -/
def welcome_message (userName : String) : String :=
  "👋 Hi " ++ userName ++ welcomeTail

/-- Embeds the `start` command handler: one `reply_text` of the
personalised welcome message, and nothing else. -/
def start (userName : String) : List CommandEvent :=
  [CommandEvent.replyText (welcome_message userName)]

/-! ### Signal-triggered shutdown -/

/-- Counts how many times each stop operation of the shutdown sequence
has been invoked on the shared resources. -/
structure OrchState where
  runnerCleanupCalls : Nat
  updaterStopCalls : Nat
  appStopCalls : Nat
  loopStopCalls : Nat
deriving DecidableEq, Repr

/-- The state before any signal arrives. -/
def initOrch : OrchState := { runnerCleanupCalls := 0, updaterStopCalls := 0, appStopCalls := 0, loopStopCalls := 0 }

/-- Embeds one run of the `shutdown` coroutine: `runner.cleanup()`,
`application.updater.stop()`, `application.stop()`, `loop.stop()`, each
invoked unconditionally. -/
def shutdown (s : OrchState) : OrchState :=
  { runnerCleanupCalls := s.runnerCleanupCalls + 1
    updaterStopCalls := s.updaterStopCalls + 1
    appStopCalls := s.appStopCalls + 1
    loopStopCalls := s.loopStopCalls + 1 }

/-- Embeds the registered signal handler `lambda:
asyncio.create_task(shutdown(sig))`: every delivered signal spawns a
full run of the shutdown sequence, with no guard. -/
def onSignal (s : OrchState) : OrchState := shutdown s

/-- Delivers `n` termination signals in sequence. -/
def deliverSignals : Nat → OrchState → OrchState
  | 0, s => s
  | Nat.succ n, s => deliverSignals n (onSignal s)

/-! ### Concrete environments used by witnesses and counterexamples -/

/-- An environment in which every collaborator call succeeds and the
decoded image has an alpha channel. -/
def envAllOk : Env :=
  { sendStatusOk := true, statusMsgId := 42, genOk := true, extractOk := true
    b64Ok := true, openOk := true, decodedMode := Mode.RGBA, saveOk := true
    jpegLen := 2048, sendPhotoOk := true, errMsgId := 43, sendErrorOk := true
    deleteOk := true }

/-- As `envAllOk` but the generation-API call raises. -/
def envGenFails : Env := { envAllOk with genOk := false }

/-- As `envAllOk` but the status-notice send raises. -/
def envStatusFails : Env := { envAllOk with sendStatusOk := false }

/-- As `envAllOk` but the status-notice delete raises. -/
def envDeleteFails : Env := { envAllOk with deleteOk := false }

/-- As `envAllOk` but the photo send raises. -/
def envPhotoFails : Env := { envAllOk with sendPhotoOk := false }

/-! ### Helper lemmas -/

/-- A normally completing finally block leaves the pending exception. -/
theorem supersede_none (x : Option Exn) : supersede none x = x := by
  cases x <;> rfl

/-- The status and failure notices have different texts. -/
theorem statusText_beq_errorText : (statusText == errorText) = false := by
  decide

/-- The failure and status notices have different texts. -/
theorem errorText_beq_statusText : (errorText == statusText) = false := by
  decide

/-- The try block emits the generation call, possibly followed by one
photo send, and nothing else. -/
theorem tryBlock_fst_shape (env : Env) (p : String) (c : Nat) :
    (tryBlock env p c).1 = [Event.genCall p] ∨
    ∃ bio, (tryBlock env p c).1 = [Event.genCall p, Event.sendPhoto c bio] := by
  unfold tryBlock
  split_ifs <;> simp

/-- The try block sends no status notice. -/
theorem tryBlock_countP_statusSend (env : Env) (p : String) (c : Nat) :
    (tryBlock env p c).1.countP isStatusSend = 0 := by
  rcases tryBlock_fst_shape env p c with h | ⟨bio, h⟩ <;> simp [h, isStatusSend]

/-- The try block sends no failure notice. -/
theorem tryBlock_countP_errorSend (env : Env) (p : String) (c : Nat) :
    (tryBlock env p c).1.countP isErrorSend = 0 := by
  rcases tryBlock_fst_shape env p c with h | ⟨bio, h⟩ <;> simp [h, isErrorSend]

/-- The try block deletes no message. -/
theorem tryBlock_countP_delete (env : Env) (p : String) (c : Nat) :
    (tryBlock env p c).1.countP isDelete = 0 := by
  rcases tryBlock_fst_shape env p c with h | ⟨bio, h⟩ <;> simp [h, isDelete]

/-- When all five steps before the photo send succeed, the try block
raises nothing except possibly from the photo send, and its trace is the
generation call followed by the photo send of the normalised JPEG
(read position 0); with a non-RGB decoded mode the image is converted. -/
theorem tryBlock_success_nonRGB (env : Env) (p : String) (c : Nat)
    (hg : env.genOk = true) (hx : env.extractOk = true) (hb : env.b64Ok = true)
    (ho : env.openOk = true) (hv : env.saveOk = true)
    (hm : env.decodedMode ≠ Mode.RGB) :
    tryBlock env p c =
      ([Event.genCall p,
        Event.sendPhoto c
          { name := "image.jpeg", format := ImgFormat.JPEG
            imageMode := Mode.RGB, pos := 0 }],
        if env.sendPhotoOk = false then some Exn.photoSendFailed else none) := by
  simp [tryBlock, hg, hx, hb, ho, hv, hm, convertRGB]

/-- If any of the five pipeline steps fails, the try block raises. -/
theorem tryBlock_snd_of_fail (env : Env) (p : String) (c : Nat)
    (h : env.genOk = false ∨ env.extractOk = false ∨ env.b64Ok = false ∨
      env.openOk = false ∨ env.saveOk = false) :
    ∃ e, (tryBlock env p c).2 = some e := by
  unfold tryBlock
  split_ifs <;> simp_all

/-- Shape of the handler run when the try block completes normally. -/
theorem generate_image_success_eq (env : Env) (p : String) (c : Nat)
    (hp : p ≠ "") (hs : env.sendStatusOk = true)
    (htr : (tryBlock env p c).2 = none) :
    generate_image env (some p) c =
      (Event.sendMessage c statusText env.statusMsgId :: (tryBlock env p c).1 ++
        [Event.deleteMessage c env.statusMsgId],
        if env.deleteOk = false then some Exn.deleteFailed else none) := by
  simp [generate_image, hp, hs, htr, finallyDelete, supersede_none]

/-- Shape of the handler run when the try block raises. -/
theorem generate_image_fail_eq (env : Env) (p : String) (c : Nat) (e : Exn)
    (hp : p ≠ "") (hs : env.sendStatusOk = true)
    (htr : (tryBlock env p c).2 = some e) :
    generate_image env (some p) c =
      (Event.sendMessage c statusText env.statusMsgId :: (tryBlock env p c).1 ++
        Event.sendMessage c errorText env.errMsgId ::
          [Event.deleteMessage c env.statusMsgId],
        supersede (if env.sendErrorOk = false then some Exn.errorSendFailed else none)
          (if env.deleteOk = false then some Exn.deleteFailed else none)) := by
  simp [generate_image, hp, hs, htr, finallyDelete]

/-! ### Claims -/

/-- Claim C1: for every inbound text message with non-empty prompt text
whose status-notice send succeeds, the Prompt Handler sends exactly one
transient status notice and deletes that same notice exactly once, on
every exit path — success, handled failure, or unexpected exception —
regardless of whether generation succeeds or fails. -/
theorem c1_status_notice_once (env : Env) (p : String) (c : Nat)
    (hp : p ≠ "") (hs : env.sendStatusOk = true) :
    (generate_image env (some p) c).1.countP isStatusSend = 1 ∧
    (generate_image env (some p) c).1.countP isDelete = 1 ∧
    Event.sendMessage c statusText env.statusMsgId ∈ (generate_image env (some p) c).1 ∧
    Event.deleteMessage c env.statusMsgId ∈ (generate_image env (some p) c).1 := by
  have h0 := tryBlock_countP_statusSend env p c
  have h1 := tryBlock_countP_delete env p c
  rcases htr : (tryBlock env p c).2 with _ | e
  · rw [generate_image_success_eq env p c hp hs htr]
    refine ⟨?_, ?_, ?_, ?_⟩ <;>
      simp [List.countP_cons, List.countP_append, h0, h1, isStatusSend, isDelete]
  · rw [generate_image_fail_eq env p c e hp hs htr]
    refine ⟨?_, ?_, ?_, ?_⟩ <;>
      simp [List.countP_cons, List.countP_append, h0, h1, isStatusSend, isDelete,
        errorText_beq_statusText]

/-- Claim C1 witness: concrete run in which every call succeeds. -/
theorem c1_witness :
    ("a red fox in snow" ≠ "") ∧ envAllOk.sendStatusOk = true ∧
    ((generate_image envAllOk (some "a red fox in snow") 5).1.countP isStatusSend = 1 ∧
      (generate_image envAllOk (some "a red fox in snow") 5).1.countP isDelete = 1 ∧
      Event.sendMessage 5 statusText envAllOk.statusMsgId ∈
        (generate_image envAllOk (some "a red fox in snow") 5).1 ∧
      Event.deleteMessage 5 envAllOk.statusMsgId ∈
        (generate_image envAllOk (some "a red fox in snow") 5).1) :=
  ⟨by decide, rfl, c1_status_notice_once envAllOk "a red fox in snow" 5 (by decide) rfl⟩

/-- Claim C2: when the generation call, payload extraction, base64
decode, image decode, or re-encoding raises and the error-path
collaborator calls themselves succeed, the exception is caught: nothing
propagates out of the handler, the user receives exactly one generic
failure text, and the status notice is still deleted. -/
theorem c2_failure_contained (env : Env) (p : String) (c : Nat)
    (hp : p ≠ "") (hs : env.sendStatusOk = true)
    (he : env.sendErrorOk = true) (hd : env.deleteOk = true)
    (hfail : env.genOk = false ∨ env.extractOk = false ∨ env.b64Ok = false ∨
      env.openOk = false ∨ env.saveOk = false) :
    (generate_image env (some p) c).2 = none ∧
    (generate_image env (some p) c).1.countP isErrorSend = 1 ∧
    Event.sendMessage c errorText env.errMsgId ∈ (generate_image env (some p) c).1 ∧
    (generate_image env (some p) c).1.countP isDelete = 1 := by
  obtain ⟨e, htr⟩ := tryBlock_snd_of_fail env p c hfail
  have h0 := tryBlock_countP_errorSend env p c
  have h1 := tryBlock_countP_delete env p c
  rw [generate_image_fail_eq env p c e hp hs htr]
  refine ⟨?_, ?_, ?_, ?_⟩ <;>
    simp [he, hd, supersede, List.countP_cons, List.countP_append, h0, h1,
      isErrorSend, isDelete, statusText_beq_errorText]

/-- Claim C2 witness: concrete run in which the generation call raises
and the error path succeeds. -/
theorem c2_witness :
    ("a red fox in snow" ≠ "") ∧ envGenFails.sendStatusOk = true ∧
    envGenFails.sendErrorOk = true ∧ envGenFails.deleteOk = true ∧
    envGenFails.genOk = false ∧
    ((generate_image envGenFails (some "a red fox in snow") 6).2 = none ∧
      (generate_image envGenFails (some "a red fox in snow") 6).1.countP isErrorSend = 1 ∧
      Event.sendMessage 6 errorText envGenFails.errMsgId ∈
        (generate_image envGenFails (some "a red fox in snow") 6).1 ∧
      (generate_image envGenFails (some "a red fox in snow") 6).1.countP isDelete = 1) :=
  ⟨by decide, rfl, rfl, rfl, rfl,
    c2_failure_contained envGenFails "a red fox in snow" 6 (by decide) rfl rfl rfl
      (Or.inl rfl)⟩

/-- Claim C3: for a message whose text is absent or empty, the handler
returns immediately with an empty trace and no exception: no status
notice, no generation call, no message of any kind, no error. -/
theorem c3_empty_or_absent_no_effect (env : Env) (c : Nat) :
    generate_image env none c = ([], none) ∧
    generate_image env (some "") c = ([], none) :=
  ⟨rfl, by simp [generate_image]⟩

/-- Claim C4: on a fully successful pipeline whose decoded image is not
RGB, the photo sent to the user is the RGB-converted image, saved as
JPEG, with the byte stream read position reset to 0; exactly one photo
send occurs. -/
theorem c4_non_rgb_normalised (env : Env) (p : String) (c : Nat)
    (hp : p ≠ "") (hs : env.sendStatusOk = true)
    (hg : env.genOk = true) (hx : env.extractOk = true) (hb : env.b64Ok = true)
    (ho : env.openOk = true) (hv : env.saveOk = true)
    (hm : env.decodedMode ≠ Mode.RGB) :
    Event.sendPhoto c
        { name := "image.jpeg", format := ImgFormat.JPEG
          imageMode := Mode.RGB, pos := 0 } ∈ (generate_image env (some p) c).1 ∧
    (generate_image env (some p) c).1.countP isPhotoSend = 1 := by
  have hts := tryBlock_success_nonRGB env p c hg hx hb ho hv hm
  cases hph : env.sendPhotoOk with
  | false =>
    have htr2 : (tryBlock env p c).2 = some Exn.photoSendFailed := by
      rw [hts]; simp [hph]
    rw [generate_image_fail_eq env p c _ hp hs htr2]
    constructor <;>
      simp [hts, List.countP_cons, List.countP_append, isPhotoSend]
  | true =>
    have htr2 : (tryBlock env p c).2 = none := by
      rw [hts]; simp [hph]
    rw [generate_image_success_eq env p c hp hs htr2]
    constructor <;>
      simp [hts, List.countP_cons, List.countP_append, isPhotoSend]

/-- Claim C4 witness: concrete successful run on an RGBA image. -/
theorem c4_witness :
    ("a corgi astronaut" ≠ "") ∧ envAllOk.sendStatusOk = true ∧
    envAllOk.genOk = true ∧ envAllOk.extractOk = true ∧ envAllOk.b64Ok = true ∧
    envAllOk.openOk = true ∧ envAllOk.saveOk = true ∧
    envAllOk.decodedMode ≠ Mode.RGB ∧
    (Event.sendPhoto 9
        { name := "image.jpeg", format := ImgFormat.JPEG
          imageMode := Mode.RGB, pos := 0 } ∈
        (generate_image envAllOk (some "a corgi astronaut") 9).1 ∧
      (generate_image envAllOk (some "a corgi astronaut") 9).1.countP isPhotoSend = 1) :=
  ⟨by decide, rfl, rfl, rfl, rfl, rfl, rfl, by decide,
    c4_non_rgb_normalised envAllOk "a corgi astronaut" 9 (by decide) rfl rfl rfl rfl rfl
      rfl (by decide)⟩

/-- Claim C5 counterexample: a failing status-notice delete is a
collaborator-library exception that does propagate out of the Prompt
Handler, refuting the claim that no collaborator exception ever does. -/
theorem c5_counterexample :
    (generate_image envDeleteFails (some "a red fox in snow") 7).2 =
      some Exn.deleteFailed := by
  decide

/-- Claim C5 (amended): exceptions raised inside the protected region
(generation call, extraction, base64 decode, image decode, re-encode,
photo send) never propagate out of the handler; this containment holds
provided the status-notice send, the failure-notice send and the
status-notice delete themselves succeed, and those three calls are
exactly the ones whose exceptions do escape. -/
theorem c5_amended_containment (env : Env) (p : String) (c : Nat)
    (hp : p ≠ "") (hs : env.sendStatusOk = true)
    (he : env.sendErrorOk = true) (hd : env.deleteOk = true) :
    (generate_image env (some p) c).2 = none := by
  rcases htr : (tryBlock env p c).2 with _ | e
  · rw [generate_image_success_eq env p c hp hs htr]; simp [hd]
  · rw [generate_image_fail_eq env p c e hp hs htr]; simp [he, hd, supersede]

/-- Claim C5 amended witness: concrete run with a failing photo send and
well-behaved status, error and delete calls. -/
theorem c5_amended_witness :
    ("a red fox in snow" ≠ "") ∧ envPhotoFails.sendStatusOk = true ∧
    envPhotoFails.sendErrorOk = true ∧ envPhotoFails.deleteOk = true ∧
    (generate_image envPhotoFails (some "a red fox in snow") 8).2 = none :=
  ⟨by decide, rfl, rfl, rfl,
    c5_amended_containment envPhotoFails "a red fox in snow" 8 (by decide) rfl rfl rfl⟩

/-- Helper: delivering signals adds to every stop-call counter. -/
theorem deliverSignals_adds (n : Nat) (s : OrchState) :
    deliverSignals n s =
      { runnerCleanupCalls := s.runnerCleanupCalls + n
        updaterStopCalls := s.updaterStopCalls + n
        appStopCalls := s.appStopCalls + n
        loopStopCalls := s.loopStopCalls + n } := by
  induction n generalizing s with
  | zero => simp [deliverSignals]
  | succ n ih =>
    rw [deliverSignals, ih]
    simp [onSignal, shutdown]
    omega

/-- Claim C6 counterexample: after two termination signals the shutdown
sequence has run twice — the web-server runner has been cleaned up
twice — refuting the claim that it runs at most once. -/
theorem c6_counterexample :
    ¬ (deliverSignals 2 initOrch).runnerCleanupCalls ≤ 1 := by
  decide

/-- Claim C6 (amended): the registered signal handler spawns a fresh,
unguarded run of the shutdown sequence on every signal, so after n
termination signals every stop operation (runner cleanup, updater stop,
application stop, loop stop) has been invoked exactly n times; a second
signal re-enters the sequence and re-stops the already-stopped
resources. -/
theorem c6_amended_each_signal_reruns (n : Nat) :
    deliverSignals n initOrch =
      { runnerCleanupCalls := n, updaterStopCalls := n
        appStopCalls := n, loopStopCalls := n } := by
  rw [deliverSignals_adds]
  simp [initOrch]

/-- Claim C7: a missing generation-API key makes the process exit at
configuration time with no service started, whatever the messaging
token is; with the key present, a missing messaging token makes main
return without starting either server. -/
theorem c7_missing_credentials (g t : Option String) (hg : falsy g = false) :
    runProcess none t = ProcOutcome.exitedAtConfig ∧
    runProcess g none = ProcOutcome.returnedWithoutStart := by
  constructor
  · rfl
  · have hn : falsy none = true := rfl
    simp [runProcess, hg, hn]

/-- Claim C7 witness: concrete credentials. -/
theorem c7_witness :
    falsy (some "gemini-key") = false ∧
    (runProcess none (some "telegram-token") = ProcOutcome.exitedAtConfig ∧
      runProcess (some "gemini-key") none = ProcOutcome.returnedWithoutStart) :=
  ⟨by decide, c7_missing_credentials (some "gemini-key") (some "telegram-token") (by decide)⟩

/-- Claim C8: every GET request routed to /health receives status 200
with plain-text body exactly "OK". -/
theorem c8_health_route (req : HttpRequest)
    (hm : req.method = HttpMethod.GET) (hq : req.path = "/health") :
    appRoute req = some { status := 200, contentType := "text/plain", body := "OK" } := by
  simp [appRoute, health_check, hm, hq]

/-- Claim C8 witness: the concrete GET /health request. -/
theorem c8_witness :
    (HttpRequest.mk HttpMethod.GET "/health").method = HttpMethod.GET ∧
    (HttpRequest.mk HttpMethod.GET "/health").path = "/health" ∧
    appRoute (HttpRequest.mk HttpMethod.GET "/health") =
      some { status := 200, contentType := "text/plain", body := "OK" } :=
  ⟨rfl, rfl, c8_health_route (HttpRequest.mk HttpMethod.GET "/health") rfl rfl⟩

/-- Claim C9: the /start handler does exactly one thing — reply with the
static welcome text — and that text contains the requesting user first
name as a substring (it is the greeting prefix, the name, then the fixed
tail). -/
theorem c9_start_personalised (userName : String) :
    start userName = [CommandEvent.replyText (welcome_message userName)] ∧
    ∃ pre post, welcome_message userName = pre ++ userName ++ post :=
  ⟨rfl, ⟨"👋 Hi ", welcomeTail, rfl⟩⟩

/-- Claim C10: when the status-notice send itself raises on a non-empty
prompt, the trace is exactly that one failed send attempt — no
generation call, no photo, no other message, no delete — and the
exception propagates out of the handler. -/
theorem c10_status_send_raises (env : Env) (p : String) (c : Nat)
    (hp : p ≠ "") (hs : env.sendStatusOk = false) :
    generate_image env (some p) c =
      ([Event.sendMessage c statusText env.statusMsgId], some Exn.statusSendFailed) ∧
    (generate_image env (some p) c).1.countP isGenCall = 0 ∧
    (generate_image env (some p) c).1.countP isPhotoSend = 0 ∧
    (generate_image env (some p) c).1.countP isDelete = 0 ∧
    (generate_image env (some p) c).1.countP isErrorSend = 0 := by
  have heq : generate_image env (some p) c =
      ([Event.sendMessage c statusText env.statusMsgId], some Exn.statusSendFailed) := by
    simp [generate_image, hp, hs]
  rw [heq]
  refine ⟨rfl, ?_, ?_, ?_, ?_⟩ <;>
    simp [isGenCall, isPhotoSend, isDelete, isErrorSend, statusText_beq_errorText]

/-- Claim C10 witness: concrete run whose status send raises. -/
theorem c10_witness :
    ("a red fox in snow" ≠ "") ∧ envStatusFails.sendStatusOk = false ∧
    (generate_image envStatusFails (some "a red fox in snow") 4 =
        ([Event.sendMessage 4 statusText envStatusFails.statusMsgId],
          some Exn.statusSendFailed) ∧
      (generate_image envStatusFails (some "a red fox in snow") 4).1.countP isGenCall = 0 ∧
      (generate_image envStatusFails (some "a red fox in snow") 4).1.countP isPhotoSend = 0 ∧
      (generate_image envStatusFails (some "a red fox in snow") 4).1.countP isDelete = 0 ∧
      (generate_image envStatusFails (some "a red fox in snow") 4).1.countP isErrorSend = 0) :=
  ⟨by decide, rfl,
    c10_status_send_raises envStatusFails "a red fox in snow" 4 (by decide) rfl⟩

end AiGen
